import Mathlib

/-!
Verification of the quoting decision pipeline in `src/strategy2.py`
(class `SmartMarketMaker`, a Hummingbot script strategy).

Embedding conventions:
* Python `float` / `Decimal` quantities are modelled as `ℚ`; numeric
  literals of the source (`0.001`, `0.8`, ...) are taken at their decimal
  value.
* IEEE NaN (which the source produces through pandas indicator columns
  that are not yet warmed up) is modelled as `none : Option ℚ`.
  Arithmetic on `Option ℚ` propagates `none`; every ordered comparison
  against `none` is `false`, exactly as NaN behaves under `<`/`>` in
  Python.  Python's two-argument `max x y` returns `y` when `y > x` and
  `x` otherwise (so `max NaN y = NaN` and `max x NaN = x`); `min` is
  dual.  `pymax` / `pymin` below encode precisely that.
* The connector, budget checker and scheduler clock are external
  collaborators; their per-tick readings (`ref_price`, balances, the
  latest indicator row, `budget_adjust`, `current_timestamp`,
  `ready_to_trade`, the active-order list) are inputs to the embedded
  functions.
* The observable effects of one `on_tick` call (order cancellations and
  order submissions, in program order) are reified as a list of events.
-/

namespace SmartMarketMaker

/-- `hummingbot.core.data_type.common.TradeType` (BUY = 1, SELL = 2, RANGE = 3). -/
inductive TradeType
  | BUY
  | SELL
  | RANGE
deriving DecidableEq, Repr

/-- `hummingbot.core.data_type.common.OrderType`, as far as the strategy uses it. -/
inductive OrderType
  | LIMIT
  | MARKET
  | LIMIT_MAKER
deriving DecidableEq, Repr

/-- `base_spread = 0.001` (strategy2.py line 16). -/
def base_spread : ℚ := 1/1000

/-- `min_spread = 0.0005` (line 17). -/
def min_spread : ℚ := 1/2000

/-- `max_spread = 0.005` (line 18). -/
def max_spread : ℚ := 1/200

/-- `order_refresh_time = 15` (line 19). -/
def order_refresh_time : ℚ := 15

/-- `base_order_amount = 0.01` (line 20). -/
def base_order_amount : ℚ := 1/100

/-- `trading_pair = "ETH-USDT"` (line 22). -/
def trading_pair : String := "ETH-USDT"

/-- NaN-propagating addition on modelled floats. -/
def oadd : Option ℚ → Option ℚ → Option ℚ
  | some a, some b => some (a + b)
  | _, _ => none

/-- NaN-propagating subtraction on modelled floats. -/
def osub : Option ℚ → Option ℚ → Option ℚ
  | some a, some b => some (a - b)
  | _, _ => none

/-- NaN-propagating multiplication on modelled floats. -/
def omul : Option ℚ → Option ℚ → Option ℚ
  | some a, some b => some (a * b)
  | _, _ => none

/-- Python `a > b` on modelled floats: `false` whenever either side is NaN. -/
def ogt : Option ℚ → Option ℚ → Bool
  | some a, some b => decide (b < a)
  | _, _ => false

/-- Python `a < b` on modelled floats: `false` whenever either side is NaN. -/
def olt : Option ℚ → Option ℚ → Bool
  | some a, some b => decide (a < b)
  | _, _ => false

/-- Python two-argument `max x y`: returns `y` exactly when `y > x`. -/
def pymax (x y : Option ℚ) : Option ℚ := if ogt y x then y else x

/-- Python two-argument `min x y`: returns `y` exactly when `y < x`. -/
def pymin (x y : Option ℚ) : Option ℚ := if olt y x then y else x

/-- `dynamic_spread` (lines 63-64):
`float(min(max(base_spread + volatility * 0.5, min_spread), max_spread))`,
evaluated with Python float semantics, so a NaN volatility yields a NaN
spread. -/
def dynamic_spread (volatility : Option ℚ) : Option ℚ :=
  pymin (pymax (oadd (some base_spread) (omul volatility (some (1/2)))) (some min_spread))
    (some max_spread)

/-- The value `dynamic_spread` takes on a numeric (non-NaN) volatility:
the clamp `min (max (base_spread + v * 0.5) min_spread) max_spread`. -/
def dynamic_spread_val (v : ℚ) : ℚ :=
  min (max (base_spread + v * (1/2)) min_spread) max_spread

/-- `hummingbot.core.data_type.order_candidate.OrderCandidate`, with the
fields the strategy sets (line 98-104).  The price carries the modelled
float (`none` = NaN propagated from an unwarmed indicator). -/
structure OrderCandidate where
  trading_pair : String
  is_maker : Bool
  order_type : OrderType
  order_side : TradeType
  amount : ℚ
  price : Option ℚ
deriving DecidableEq, Repr

/-- `total_value = quote_balance + base_balance * ref_price` (line 84). -/
def total_value (base_balance quote_balance ref_price : ℚ) : ℚ :=
  quote_balance + base_balance * ref_price

/-- `inventory_ratio = (base_balance * ref_price) / total_value if total_value > 0 else 0.5`
(line 85). -/
def inventory_ratio (base_balance quote_balance ref_price : ℚ) : ℚ :=
  if total_value base_balance quote_balance ref_price > 0 then
    (base_balance * ref_price) / total_value base_balance quote_balance ref_price
  else 1/2

/-- The order-size step rule of lines 88-91: half `base_order_amount`
when the inventory ratio is above 0.8 or below 0.2, full size otherwise. -/
def order_amount (base_balance quote_balance ref_price : ℚ) : ℚ :=
  if inventory_ratio base_balance quote_balance ref_price > 4/5 ∨
      inventory_ratio base_balance quote_balance ref_price < 1/5 then
    base_order_amount * (1/2)
  else base_order_amount

/-- `create_proposal` (lines 66-106).  The per-tick connector reads
(reference price, balances) and the last indicator row (`RSI_14`,
`volatility`, lines 74-75) enter as parameters; `rsi` / `volatility`
are `none` when the corresponding pandas cell is NaN.  Mirrors the
source order: spread and prices (77-79), inventory sizing (84-91), the
RSI filter early return (94-96), then the two order candidates. -/
def create_proposal (ref_price base_balance quote_balance : ℚ)
    (rsi volatility : Option ℚ) : List OrderCandidate :=
  let spread := dynamic_spread volatility
  let buy_price := omul (some ref_price) (osub (some 1) spread)
  let sell_price := omul (some ref_price) (oadd (some 1) spread)
  let amount := order_amount base_balance quote_balance ref_price
  if ogt rsi (some 75) || olt rsi (some 25) then []
  else
    [⟨trading_pair, true, OrderType.LIMIT, TradeType.BUY, amount, buy_price⟩,
     ⟨trading_pair, true, OrderType.LIMIT, TradeType.SELL, amount, sell_price⟩]

/-- Modelled from the spec and the pandas_ta library contract: the
`RSI_14` cell read at line 74 is NaN (here `none`) while the candle
window holds fewer than 15 candles, and a numeric oscillator value from
15 candles on ("Indicator Window with fewer than 15 candles appended
returns not ready; with exactly 15, trend signal becomes computable"). -/
def latest_rsi (window_len : ℕ) (value : ℚ) : Option ℚ :=
  if window_len < 15 then none else some value

/-- A submission handed to the connector: `self.buy(...)` (line 119) or
`self.sell(...)` (line 117), with the argument list of `place_order`. -/
inductive Submission
  | buySubmit (trading_pair : String) (amount : ℚ) (order_type : OrderType) (price : Option ℚ)
  | sellSubmit (trading_pair : String) (amount : ℚ) (order_type : OrderType) (price : Option ℚ)
deriving DecidableEq, Repr

/-- `place_order` (lines 115-119): SELL routes to the sell-submit call,
BUY to the buy-submit call, anything else falls off the elif chain. -/
def place_order (order : OrderCandidate) : List Submission :=
  if order.order_side = TradeType.SELL then
    [Submission.sellSubmit order.trading_pair order.amount order.order_type order.price]
  else if order.order_side = TradeType.BUY then
    [Submission.buySubmit order.trading_pair order.amount order.order_type order.price]
  else []

/-- `place_orders` (lines 111-113): submits each candidate in order. -/
def place_orders (proposal : List OrderCandidate) : List Submission :=
  proposal.flatMap place_order

/-- An active order on the connector, as enumerated by
`get_active_orders` (external, read-only to the strategy). -/
structure ActiveOrder where
  trading_pair : String
  client_order_id : String
deriving DecidableEq, Repr

/-- An observable order action of one tick, in program order. -/
inductive Event
  | cancel (trading_pair : String) (client_order_id : String)
  | submit (s : Submission)
deriving DecidableEq, Repr

/-- `cancel_all_orders` (lines 121-123): cancels every enumerated active
order by its pair and client order id. -/
def cancel_all_orders (active : List ActiveOrder) : List Event :=
  active.map (fun o => Event.cancel o.trading_pair o.client_order_id)

/-- The external readings one `on_tick` call makes: clock and readiness,
the connector's active orders, price and balances, the latest indicator
row, and the budget checker (`adjust_candidates`, line 109) as an opaque
external function. -/
structure TickInputs where
  current_timestamp : ℚ
  ready_to_trade : Bool
  active_orders : List ActiveOrder
  ref_price : ℚ
  base_balance : ℚ
  quote_balance : ℚ
  rsi : Option ℚ
  volatility : Option ℚ
  budget_adjust : List OrderCandidate → List OrderCandidate

/-- Result of one `on_tick` call: the emitted order actions in program
order, and the new value of `create_timestamp`. -/
structure TickResult where
  events : List Event
  create_timestamp : ℚ
deriving Repr

/-- `on_tick` (lines 46-55): when `create_timestamp <= current_timestamp`
and the strategy is ready to trade, cancel all active orders, build the
proposal, pass it through the budget checker, place the surviving
candidates, and set `create_timestamp = current_timestamp + order_refresh_time`;
otherwise do nothing. -/
def on_tick (create_timestamp : ℚ) (i : TickInputs) : TickResult :=
  if create_timestamp ≤ i.current_timestamp ∧ i.ready_to_trade then
    ⟨cancel_all_orders i.active_orders ++
      (place_orders (i.budget_adjust
        (create_proposal i.ref_price i.base_balance i.quote_balance i.rsi i.volatility))).map
        Event.submit,
     i.current_timestamp + order_refresh_time⟩
  else ⟨[], create_timestamp⟩

@[simp] lemma oadd_some_some (a b : ℚ) : oadd (some a) (some b) = some (a + b) := rfl

@[simp] lemma osub_some_some (a b : ℚ) : osub (some a) (some b) = some (a - b) := rfl

@[simp] lemma omul_some_some (a b : ℚ) : omul (some a) (some b) = some (a * b) := rfl

@[simp] lemma omul_none_left (b : Option ℚ) : omul none b = none := rfl

@[simp] lemma osub_none_right (a : Option ℚ) : osub a none = none := by cases a <;> rfl

@[simp] lemma oadd_none_right (a : Option ℚ) : oadd a none = none := by cases a <;> rfl

@[simp] lemma omul_none_right (a : Option ℚ) : omul a none = none := by cases a <;> rfl

@[simp] lemma ogt_some_some (a b : ℚ) : ogt (some a) (some b) = decide (b < a) := rfl

@[simp] lemma olt_some_some (a b : ℚ) : olt (some a) (some b) = decide (a < b) := rfl

@[simp] lemma ogt_none_left (b : Option ℚ) : ogt none b = false := rfl

@[simp] lemma olt_none_left (b : Option ℚ) : olt none b = false := rfl

@[simp] lemma ogt_none_right (a : Option ℚ) : ogt a none = false := by cases a <;> rfl

@[simp] lemma olt_none_right (a : Option ℚ) : olt a none = false := by cases a <;> rfl

/-- A NaN volatility yields a NaN spread: no clamping rescues it,
because both Python comparisons against NaN are false. -/
@[simp] lemma dynamic_spread_none : dynamic_spread none = none := rfl

/-- On a numeric volatility, `dynamic_spread` is the pure clamp. -/
lemma dynamic_spread_some (v : ℚ) :
    dynamic_spread (some v) = some (dynamic_spread_val v) := by
  simp only [dynamic_spread, dynamic_spread_val, pymax, pymin, oadd_some_some,
    omul_some_some, ogt_some_some, olt_some_some, decide_eq_true_eq,
    base_spread, min_spread, max_spread, min_def, max_def]
  split_ifs <;>
      simp only [olt_some_some, ogt_some_some, decide_eq_true_eq] at * <;>
    first
    | rfl
    | (congr 1; linarith)

/-- The clamp always lands in `[min_spread, max_spread]`. -/
lemma dynamic_spread_val_bounds (v : ℚ) :
    min_spread ≤ dynamic_spread_val v ∧ dynamic_spread_val v ≤ max_spread := by
  constructor
  · exact le_min (le_max_right _ _) (by norm_num [min_spread, max_spread])
  · exact min_le_right _ _

/-- Claim C1 is refuted by the code.  With fewer than 15 candles the
`RSI_14` cell read at line 74 is NaN; both comparisons `rsi > 75` and
`rsi < 25` are false on NaN, so the early return at lines 94-96 is not
taken and `create_proposal` returns a 2-element proposal — not the empty
Proposal the claim requires for every not-ready window.  When the
volatility cell is NaN too, both order prices are NaN. -/
theorem c1_not_ready_places_orders (n : ℕ) (hn : n < 15) (r p bb qb : ℚ) (vol : Option ℚ) :
    (create_proposal p bb qb (latest_rsi n r) vol).length = 2 ∧
    create_proposal p bb qb (latest_rsi n r) none =
      [⟨trading_pair, true, OrderType.LIMIT, TradeType.BUY, order_amount bb qb p, none⟩,
       ⟨trading_pair, true, OrderType.LIMIT, TradeType.SELL, order_amount bb qb p, none⟩] := by
  unfold latest_rsi
  rw [if_pos hn]
  unfold create_proposal
  simp

/-- Witness for C1: a 5-candle window (RSI cell = NaN), reference price
2000, balances 1 and 1000, volatility cell NaN: the proposal has 2
intents. -/
theorem c1_witness :
    5 < 15 ∧ (create_proposal 2000 1 1000 (latest_rsi 5 50) none).length = 2 :=
  ⟨by norm_num, (c1_not_ready_places_orders 5 (by norm_num) 50 2000 1 1000 none).1⟩

/-- Claim C2: for a numeric trend signal t, the proposal is empty iff
t > 75 or t < 25, and at t = 80 it is empty for every price, balance and
volatility input. -/
theorem c2_trend_filter_iff (t p bb qb : ℚ) (vol : Option ℚ) :
    (create_proposal p bb qb (some t) vol = [] ↔ 75 < t ∨ t < 25) ∧
    create_proposal p bb qb (some 80) vol = [] := by
  constructor
  · unfold create_proposal
    simp only [ogt_some_some, olt_some_some, Bool.or_eq_true, decide_eq_true_eq]
    split_ifs with h
    · simp [h]
    · simp [h]
  · unfold create_proposal
    norm_num

/-- Witness for C2: the boundary signals 25 and 75 are not suppressed; the
signal 80 is. -/
theorem c2_witness :
    create_proposal 2000 1 1000 (some 25) (some (1/500)) ≠ [] ∧
    create_proposal 2000 1 1000 (some 75) (some (1/500)) ≠ [] ∧
    create_proposal 2000 1 1000 (some 80) (some (1/500)) = [] := by
  refine ⟨fun h => ?_, fun h => ?_, (c2_trend_filter_iff 80 2000 1 1000 (some (1/500))).2⟩
  · rcases (c2_trend_filter_iff 25 2000 1 1000 (some (1/500))).1.mp h with h' | h' <;>
      norm_num at h'
  · rcases (c2_trend_filter_iff 75 2000 1 1000 (some (1/500))).1.mp h with h' | h' <;>
      norm_num at h'

/-- Claim C3: for every volatility v ≥ 0, the spread is the clamp of
0.001 + v × 0.5 to [0.0005, 0.005], its value lies in that closed
interval, and at v = 0 it is exactly 0.001. -/
theorem c3_spread_clamp (v : ℚ) (hv : 0 ≤ v) :
    dynamic_spread (some v) = some (dynamic_spread_val v) ∧
    dynamic_spread_val v = min (max (1/1000 + v * (1/2)) (1/2000)) (1/200) ∧
    1/2000 ≤ dynamic_spread_val v ∧ dynamic_spread_val v ≤ 1/200 ∧
    dynamic_spread_val 0 = 1/1000 := by
  have hb := dynamic_spread_val_bounds v
  refine ⟨dynamic_spread_some v, ?_, ?_, ?_, ?_⟩
  · simp [dynamic_spread_val, base_spread, min_spread, max_spread]
  · simpa [min_spread] using hb.1
  · simpa [max_spread] using hb.2
  · norm_num [dynamic_spread_val, base_spread, min_spread, max_spread]

/-- Witness for C3: concrete volatility 0.002 (Scenario A) gives spread
0.002, inside the clamp interval. -/
theorem c3_witness :
    (dynamic_spread (some (1/500)) = some (dynamic_spread_val (1/500)) ∧
      dynamic_spread_val (1/500) =
        min (max (1/1000 + (1/500) * (1/2)) (1/2000)) (1/200) ∧
      1/2000 ≤ dynamic_spread_val (1/500) ∧ dynamic_spread_val (1/500) ≤ 1/200 ∧
      dynamic_spread_val 0 = 1/1000) ∧
    dynamic_spread_val (1/500) = 1/500 := by
  refine ⟨c3_spread_clamp (1/500) (by norm_num), ?_⟩
  norm_num [dynamic_spread_val, base_spread, min_spread, max_spread]

/-- Claim C5: the order amount is always the full base amount 0.01 or the
half amount 0.005; it is the half amount exactly when the inventory
ratio is above 0.8 or below 0.2; and the ratio is defined as the neutral
0.5 whenever the total value is not positive. -/
theorem c5_inventory_amount (bb qb p : ℚ) :
    (order_amount bb qb p = base_order_amount ∨
      order_amount bb qb p = base_order_amount * (1/2)) ∧
    (order_amount bb qb p = base_order_amount * (1/2) ↔
      4/5 < inventory_ratio bb qb p ∨ inventory_ratio bb qb p < 1/5) ∧
    (¬ 0 < total_value bb qb p → inventory_ratio bb qb p = 1/2) := by
  refine ⟨?_, ?_, ?_⟩
  · unfold order_amount
    split_ifs
    · exact Or.inr rfl
    · exact Or.inl rfl
  · unfold order_amount
    split_ifs with h
    · exact iff_of_true rfl h
    · exact iff_of_false (by norm_num [base_order_amount]) h
  · intro h
    unfold inventory_ratio
    rw [if_neg h]

/-- Witness for C5: Scenario B — base 17, quote 3, price 1 gives total
value 20 and inventory ratio 0.85 > 0.8, hence the half amount; with all
inputs zero the total value is 0 and the ratio is the neutral 0.5. -/
theorem c5_witness :
    order_amount 17 3 1 = base_order_amount * (1/2) ∧
    inventory_ratio 17 3 1 = 17/20 ∧
    inventory_ratio 0 0 0 = 1/2 := by
  have hr : inventory_ratio 17 3 1 = 17/20 := by
    norm_num [inventory_ratio, total_value]
  refine ⟨(c5_inventory_amount 17 3 1).2.1.mpr (Or.inl (by rw [hr]; norm_num)), hr, ?_⟩
  exact (c5_inventory_amount 0 0 0).2.2 (by norm_num [total_value])

/-- Claim C4: with a ready, unsuppressed signal and numeric volatility,
the proposal is exactly the ordered pair of one BUY intent at
p × (1 − h) and one SELL intent at p × (1 + h) for the computed
half-spread h ∈ (0, 1); the bid is below and the ask above the reference
price, the ask/bid ratio is (1+h)/(1−h); and for every input whatsoever
the proposal holds 0 or 2 intents, never any other number. -/
theorem c4_quote_pair (p bb qb t v : ℚ) (hp : 0 < p) (ht : ¬(75 < t ∨ t < 25)) :
    0 < dynamic_spread_val v ∧ dynamic_spread_val v < 1 ∧
    create_proposal p bb qb (some t) (some v) =
      [⟨trading_pair, true, OrderType.LIMIT, TradeType.BUY, order_amount bb qb p,
         some (p * (1 - dynamic_spread_val v))⟩,
       ⟨trading_pair, true, OrderType.LIMIT, TradeType.SELL, order_amount bb qb p,
         some (p * (1 + dynamic_spread_val v))⟩] ∧
    p * (1 - dynamic_spread_val v) < p ∧ p < p * (1 + dynamic_spread_val v) ∧
    (p * (1 + dynamic_spread_val v)) / (p * (1 - dynamic_spread_val v)) =
      (1 + dynamic_spread_val v) / (1 - dynamic_spread_val v) ∧
    ∀ (q b c : ℚ) (r w : Option ℚ),
      (create_proposal q b c r w).length = 0 ∨ (create_proposal q b c r w).length = 2 := by
  have hb := dynamic_spread_val_bounds v
  have h0 : 0 < dynamic_spread_val v :=
    lt_of_lt_of_le (by norm_num [min_spread]) hb.1
  have h1 : dynamic_spread_val v < 1 :=
    lt_of_le_of_lt hb.2 (by norm_num [max_spread])
  have hph := mul_pos hp h0
  refine ⟨h0, h1, ?_, by nlinarith, by nlinarith, ?_, ?_⟩
  · unfold create_proposal
    rw [dynamic_spread_some]
    simp only [ogt_some_some, olt_some_some, Bool.or_eq_true, decide_eq_true_eq,
      osub_some_some, oadd_some_some, omul_some_some]
    rw [if_neg ht]
  · exact mul_div_mul_left _ _ (ne_of_gt hp)
  · intro q b c r w
    unfold create_proposal
    split_ifs <;> simp

/-- Witness for C4: reference price 2000, trend signal 50, volatility
0.002, balances 1 and 1000: the proposal is the BUY/SELL pair at the
clamped half-spread. -/
theorem c4_witness :
    (0 : ℚ) < 2000 ∧ ¬((75 : ℚ) < 50 ∨ (50 : ℚ) < 25) ∧
    create_proposal 2000 1 1000 (some 50) (some (1/500)) =
      [⟨trading_pair, true, OrderType.LIMIT, TradeType.BUY, order_amount 1 1000 2000,
         some (2000 * (1 - dynamic_spread_val (1/500)))⟩,
       ⟨trading_pair, true, OrderType.LIMIT, TradeType.SELL, order_amount 1 1000 2000,
         some (2000 * (1 + dynamic_spread_val (1/500)))⟩] :=
  ⟨by norm_num, by norm_num,
    (c4_quote_pair 2000 1 1000 50 (1/500) (by norm_num) (by norm_num)).2.2.1⟩

/-- Claim C6: a tick arriving before `create_timestamp`, or while the
strategy is not ready to trade, is a complete no-op — no cancel event,
no submit event, and `create_timestamp` unchanged. -/
theorem c6_idle_noop (ts : ℚ) (i : TickInputs)
    (h : i.current_timestamp < ts ∨ i.ready_to_trade = false) :
    on_tick ts i = ⟨[], ts⟩ := by
  unfold on_tick
  rw [if_neg]
  rintro ⟨h1, h2⟩
  rcases h with h | h
  · exact absurd h1 (not_le.mpr h)
  · simp [h] at h2

/-- Witness for C6: `create_timestamp = 10`, a tick at time 5 with an
active order on the book: nothing happens and the timestamp stays 10. -/
theorem c6_witness :
    ((5 : ℚ) < 10 ∨ (true = false)) ∧
    on_tick 10 ⟨5, true, [⟨"ETH-USDT", "id1"⟩], 2000, 1, 1000, some 50, some (1/500),
      fun x => x⟩ = ⟨[], 10⟩ :=
  ⟨Or.inl (by norm_num),
    c6_idle_noop 10 _ (Or.inl (by show (5 : ℚ) < 10; norm_num))⟩

/-- Claim C7: on a due, ready tick whose budget-adjusted proposal is
empty (insufficient budget, or a suppressed/empty proposal fed to the
checker), nothing is submitted, all prior active orders are still
cancelled, and `create_timestamp` still advances to now + 15. -/
theorem c7_budget_empty_tick (ts : ℚ) (i : TickInputs)
    (hdue : ts ≤ i.current_timestamp) (hready : i.ready_to_trade = true)
    (hempty : i.budget_adjust (create_proposal i.ref_price i.base_balance
      i.quote_balance i.rsi i.volatility) = []) :
    on_tick ts i = ⟨cancel_all_orders i.active_orders, i.current_timestamp + 15⟩ ∧
    ∀ s, Event.submit s ∉ (on_tick ts i).events := by
  have he : on_tick ts i =
      ⟨cancel_all_orders i.active_orders, i.current_timestamp + 15⟩ := by
    unfold on_tick
    rw [if_pos ⟨hdue, hready⟩, hempty]
    simp [place_orders, order_refresh_time]
  refine ⟨he, fun s hs => ?_⟩
  rw [he] at hs
  simp only [cancel_all_orders, List.mem_map] at hs
  obtain ⟨o, _, hc⟩ := hs
  cases hc

/-- Witness for C7: a due tick at time 10 with two active orders and a
budget checker that rejects everything: both orders are cancelled,
nothing is submitted, and the timestamp advances to 25. -/
theorem c7_witness :
    (10 : ℚ) ≤ 10 ∧
    on_tick 10 ⟨10, true, [⟨"ETH-USDT", "a1"⟩, ⟨"ETH-USDT", "a2"⟩], 2000, 1, 1000,
        some 50, some (1/500), fun _ => []⟩ =
      ⟨cancel_all_orders [⟨"ETH-USDT", "a1"⟩, ⟨"ETH-USDT", "a2"⟩], 10 + 15⟩ :=
  ⟨le_refl 10,
    (c7_budget_empty_tick 10 _ (le_refl 10) rfl rfl).1⟩

/-- Claim C8: on a due, ready tick, the event list is the cancellations
of exactly the enumerated active orders (each by its pair and client
order id) followed by the submissions — so every cancellation precedes
every submission; every active order is cancelled, every cancel event
names an active order, and if all active orders are for the strategy's
pair then no other pair is ever cancelled. -/
theorem c8_cancel_exactly_active (ts : ℚ) (i : TickInputs)
    (hdue : ts ≤ i.current_timestamp) (hready : i.ready_to_trade = true) :
    (on_tick ts i).events =
      cancel_all_orders i.active_orders ++
        (place_orders (i.budget_adjust (create_proposal i.ref_price i.base_balance
          i.quote_balance i.rsi i.volatility))).map Event.submit ∧
    (∀ o ∈ i.active_orders,
      Event.cancel o.trading_pair o.client_order_id ∈ (on_tick ts i).events) ∧
    (∀ pr cid, Event.cancel pr cid ∈ (on_tick ts i).events →
      ∃ o ∈ i.active_orders, o.trading_pair = pr ∧ o.client_order_id = cid) ∧
    ((∀ o ∈ i.active_orders, o.trading_pair = trading_pair) →
      ∀ pr cid, Event.cancel pr cid ∈ (on_tick ts i).events → pr = trading_pair) := by
  have he : (on_tick ts i).events =
      cancel_all_orders i.active_orders ++
        (place_orders (i.budget_adjust (create_proposal i.ref_price i.base_balance
          i.quote_balance i.rsi i.volatility))).map Event.submit := by
    unfold on_tick
    rw [if_pos ⟨hdue, hready⟩]
  have hmem : ∀ pr cid, Event.cancel pr cid ∈ (on_tick ts i).events →
      ∃ o ∈ i.active_orders, o.trading_pair = pr ∧ o.client_order_id = cid := by
    intro pr cid hc
    rw [he] at hc
    rcases List.mem_append.mp hc with hc | hc
    · simp only [cancel_all_orders, List.mem_map] at hc
      obtain ⟨o, ho, hoc⟩ := hc
      injection hoc with e1 e2
      exact ⟨o, ho, e1, e2⟩
    · obtain ⟨s, _, hs⟩ := List.mem_map.mp hc
      cases hs
  refine ⟨he, ?_, hmem, ?_⟩
  · intro o ho
    rw [he]
    exact List.mem_append_left _
      (List.mem_map_of_mem (fun o => Event.cancel o.trading_pair o.client_order_id) ho)
  · intro hall pr cid hc
    obtain ⟨o, ho, h1, _⟩ := hmem pr cid hc
    exact h1 ▸ hall o ho

/-- Witness for C8: a due tick at time 10 with one active order and a
suppressed proposal (trend signal 80): the order's cancel event is in
the tick's event list. -/
theorem c8_witness :
    (10 : ℚ) ≤ 10 ∧
    Event.cancel "ETH-USDT" "a1" ∈
      (on_tick 10 ⟨10, true, [⟨"ETH-USDT", "a1"⟩], 2000, 1, 1000, some 80,
        some (1/500), fun x => x⟩).events :=
  ⟨le_refl 10,
    (c8_cancel_exactly_active 10 _ (le_refl 10) rfl).2.1 ⟨"ETH-USDT", "a1"⟩ (by simp)⟩

/-- Claim C9: submission routes BUY intents through the buy-submit call
and SELL intents through the sell-submit call, preserving the intent's
pair, amount, order type and price unchanged; and every intent of a
proposal has its submissions included when the proposal is placed. -/
theorem c9_submission_routing (o : OrderCandidate) :
    (o.order_side = TradeType.BUY →
      place_order o = [Submission.buySubmit o.trading_pair o.amount o.order_type o.price]) ∧
    (o.order_side = TradeType.SELL →
      place_order o = [Submission.sellSubmit o.trading_pair o.amount o.order_type o.price]) ∧
    (∀ l : List OrderCandidate, o ∈ l → ∀ s ∈ place_order o, s ∈ place_orders l) := by
  refine ⟨fun h => ?_, fun h => ?_, fun l hl s hs => ?_⟩
  · simp [place_order, h]
  · simp [place_order, h]
  · exact List.mem_flatMap.mpr ⟨o, hl, hs⟩

/-- Witness for C9: a concrete BUY candidate goes through the buy-submit
call with identical pair, amount, type and price. -/
theorem c9_witness :
    place_order ⟨"ETH-USDT", true, OrderType.LIMIT, TradeType.BUY, 1/100, some 1996⟩ =
      [Submission.buySubmit "ETH-USDT" (1/100) OrderType.LIMIT (some 1996)] :=
  (c9_submission_routing _).1 rfl

/-- Claim C10: an order candidate whose side is neither BUY nor SELL
falls off the elif chain of `place_order` — no submission, no error —
and consequently every submission produced by `place_orders` comes from
a BUY or SELL candidate of the proposal. -/
theorem c10_unknown_side_noop :
    (∀ o : OrderCandidate, o.order_side ≠ TradeType.BUY → o.order_side ≠ TradeType.SELL →
      place_order o = []) ∧
    (∀ (l : List OrderCandidate) (s : Submission), s ∈ place_orders l →
      ∃ o ∈ l, (o.order_side = TradeType.BUY ∨ o.order_side = TradeType.SELL) ∧
        s ∈ place_order o) := by
  constructor
  · intro o hb hs
    unfold place_order
    rw [if_neg hs, if_neg hb]
  · intro l s hs
    obtain ⟨o, hol, hso⟩ := List.mem_flatMap.mp hs
    refine ⟨o, hol, ?_, hso⟩
    by_cases h1 : o.order_side = TradeType.SELL
    · exact Or.inr h1
    · by_cases h2 : o.order_side = TradeType.BUY
      · exact Or.inl h2
      · unfold place_order at hso
        rw [if_neg h1, if_neg h2] at hso
        cases hso

/-- Witness for C10: a RANGE-side candidate produces no submission. -/
theorem c10_witness :
    place_order ⟨"ETH-USDT", true, OrderType.LIMIT, TradeType.RANGE, 1/100, some 1996⟩ = [] :=
  c10_unknown_side_noop.1 _ (by decide) (by decide)

end SmartMarketMaker
